import Mathlib

/-!
Verification development for the Slack View Customizer content script.

The script maintains up to three boolean "collapsed" flags (top, bottom,
left), each reflected by one marker class on the document body and by the
icon / tooltip / aria-label of one injected toggle button.  We embed the
DOM-facing state shallowly: the body class list is a `List String`, a
button is a record of the attributes the script reads or writes, and each
event handler becomes a pure state transformer that additionally reports
the key/value pair it passes to the persistence layer.  The three-toggle
variant (content.js) is modelled; the two-toggle variant is the same code
with the left flag absent.
-/

namespace SlackVC

/-- Storage key for the top flag (`STORAGE_KEY_TOP` in content.js). -/
def STORAGE_KEY_TOP : String := "slack-vc-top-collapsed"

/-- Storage key for the bottom flag. -/
def STORAGE_KEY_BOTTOM : String := "slack-vc-bottom-collapsed"

/-- Storage key for the left flag. -/
def STORAGE_KEY_LEFT : String := "slack-vc-left-collapsed"

/-- Body marker class for the top flag (`CLASS_TOP`). -/
def CLASS_TOP : String := "slack-vc--top-collapsed"

/-- Body marker class for the bottom flag (`CLASS_BOTTOM`). -/
def CLASS_BOTTOM : String := "slack-vc--bottom-collapsed"

/-- Body marker class for the left flag (`CLASS_LEFT`). -/
def CLASS_LEFT : String := "slack-vc--left-collapsed"

/-- Element id of the top toggle button. -/
def BTN_TOP_ID : String := "slack-vc-toggle-btn-top"

/-- Element id of the bottom toggle button. -/
def BTN_BOTTOM_ID : String := "slack-vc-toggle-btn-bottom"

/-- Element id of the left toggle button. -/
def BTN_LEFT_ID : String := "slack-vc-toggle-btn-left"

/-- SVG markup of the up arrow (`ICON_UP`, a JS template literal that
starts with a newline). -/
def ICON_UP : String :=
  "\n    <svg viewBox=\"0 0 16 16\" fill=\"none\" xmlns=\"http://www.w3.org/2000/svg\">\n      <path d=\"M3 10L8 5L13 10\" stroke=\"currentColor\" stroke-width=\"1.8\"\n            stroke-linecap=\"round\" stroke-linejoin=\"round\"/>\n    </svg>"

/-- SVG markup of the down arrow (`ICON_DOWN`). -/
def ICON_DOWN : String :=
  "\n    <svg viewBox=\"0 0 16 16\" fill=\"none\" xmlns=\"http://www.w3.org/2000/svg\">\n      <path d=\"M3 6L8 11L13 6\" stroke=\"currentColor\" stroke-width=\"1.8\"\n            stroke-linecap=\"round\" stroke-linejoin=\"round\"/>\n    </svg>"

/-- SVG markup of the left arrow (`ICON_LEFT`). -/
def ICON_LEFT : String :=
  "\n    <svg viewBox=\"0 0 16 16\" fill=\"none\" xmlns=\"http://www.w3.org/2000/svg\">\n      <path d=\"M10 3L5 8L10 13\" stroke=\"currentColor\" stroke-width=\"1.8\"\n            stroke-linecap=\"round\" stroke-linejoin=\"round\"/>\n    </svg>"

/-- SVG markup of the right arrow (`ICON_RIGHT`). -/
def ICON_RIGHT : String :=
  "\n    <svg viewBox=\"0 0 16 16\" fill=\"none\" xmlns=\"http://www.w3.org/2000/svg\">\n      <path d=\"M6 3L11 8L6 13\" stroke=\"currentColor\" stroke-width=\"1.8\"\n            stroke-linecap=\"round\" stroke-linejoin=\"round\"/>\n    </svg>"

/-- The attributes of a toggle button that the script reads or writes:
`innerHTML` (the icon), the `data-tooltip` and `aria-label` attributes,
and the inline style fields touched by `applyLeftState` and by the
left-button positioning loop. -/
structure Button where
  innerHTML : String
  dataTooltip : String
  ariaLabel : String
  styleTop : String
  styleTransform : String
  styleLeft : String
  deriving Repr, DecidableEq

/-- A freshly created button (`document.createElement('button')`) before
any `applyState` has run: every modelled attribute is empty. -/
def freshButton : Button :=
  { innerHTML := "", dataTooltip := "", ariaLabel := "",
    styleTop := "", styleTransform := "", styleLeft := "" }

/-- DOM `classList.toggle(cls, force)`: with `force` true the class is
added (if absent), with `force` false it is removed. -/
def classListToggle (body : List String) (cls : String) (force : Bool) :
    List String :=
  if force then (if cls ∈ body then body else body ++ [cls])
  else body.filter (fun c => c != cls)

/-- Effect of `applyTopState` on the button argument: icon, tooltip and
aria-label are set from `collapsed` (down arrow and 「ヘッダーを表示」 when
collapsed, up arrow and 「ヘッダーを非表示」 when expanded). -/
def applyTopStateBtn (collapsed : Bool) (btn : Button) : Button :=
  let label := if collapsed then "ヘッダーを表示" else "ヘッダーを非表示"
  { btn with innerHTML := if collapsed then ICON_DOWN else ICON_UP,
             dataTooltip := label, ariaLabel := label }

/-- Effect of `applyBottomState` on the button argument (arrows are the
mirror image of the top button's). -/
def applyBottomStateBtn (collapsed : Bool) (btn : Button) : Button :=
  let label := if collapsed then "入力エリアを表示" else "入力エリアを非表示"
  { btn with innerHTML := if collapsed then ICON_UP else ICON_DOWN,
             dataTooltip := label, ariaLabel := label }

/-- Effect of `applyLeftState` on the button argument; it also pins
`style.top` and `style.transform` to centre the button vertically. -/
def applyLeftStateBtn (collapsed : Bool) (btn : Button) : Button :=
  let label := if collapsed then "サイドバーを表示" else "サイドバーを非表示"
  { btn with innerHTML := if collapsed then ICON_RIGHT else ICON_LEFT,
             dataTooltip := label, ariaLabel := label,
             styleTop := "50%", styleTransform := "translateY(-50%)" }

/-- `applyTopState(collapsed, btn)`: toggles `CLASS_TOP` on the body class
list and, when a button is given (`if (btn)`), updates it.  Returns the
new body class list and the (possibly updated) button. -/
def applyTopState (collapsed : Bool) (btn : Option Button)
    (body : List String) : List String × Option Button :=
  (classListToggle body CLASS_TOP collapsed, btn.map (applyTopStateBtn collapsed))

/-- `applyBottomState(collapsed, btn)`. -/
def applyBottomState (collapsed : Bool) (btn : Option Button)
    (body : List String) : List String × Option Button :=
  (classListToggle body CLASS_BOTTOM collapsed, btn.map (applyBottomStateBtn collapsed))

/-- `applyLeftState(collapsed, btn)`. -/
def applyLeftState (collapsed : Bool) (btn : Option Button)
    (body : List String) : List String × Option Button :=
  (classListToggle body CLASS_LEFT collapsed, btn.map (applyLeftStateBtn collapsed))

/-- The page state the script manipulates: the document body's class list
and the three injected buttons (`none` before injection, i.e. when
`document.getElementById` would find nothing). -/
structure PageState where
  body : List String
  topBtn : Option Button
  bottomBtn : Option Button
  leftBtn : Option Button
  deriving Repr, DecidableEq

/-- The top button's click handler: read the current collapsed state from
the body class list, flip it, apply it, and persist the new value.
Returns the new page state and the `(key, value)` pair passed to
`setStoredState`; when no top button exists there is nothing to click and
nothing happens. -/
def clickTop (s : PageState) : PageState × Option (String × Bool) :=
  match s.topBtn with
  | none => (s, none)
  | some btn =>
    let nowCollapsed : Bool := decide (CLASS_TOP ∈ s.body)
    let newState := !nowCollapsed
    let r := applyTopState newState (some btn) s.body
    ({ s with body := r.1, topBtn := r.2 }, some (STORAGE_KEY_TOP, newState))

/-- The bottom button's click handler. -/
def clickBottom (s : PageState) : PageState × Option (String × Bool) :=
  match s.bottomBtn with
  | none => (s, none)
  | some btn =>
    let nowCollapsed : Bool := decide (CLASS_BOTTOM ∈ s.body)
    let newState := !nowCollapsed
    let r := applyBottomState newState (some btn) s.body
    ({ s with body := r.1, bottomBtn := r.2 }, some (STORAGE_KEY_BOTTOM, newState))

/-- The left button's click handler. -/
def clickLeft (s : PageState) : PageState × Option (String × Bool) :=
  match s.leftBtn with
  | none => (s, none)
  | some btn =>
    let nowCollapsed : Bool := decide (CLASS_LEFT ∈ s.body)
    let newState := !nowCollapsed
    let r := applyLeftState newState (some btn) s.body
    ({ s with body := r.1, leftBtn := r.2 }, some (STORAGE_KEY_LEFT, newState))

/-- `createTopButton(initialCollapsed)`: creates a fresh button and runs
`applyTopState` on it (which also toggles the body class).  Returns the
new body class list and the created button. -/
def createTopButton (initialCollapsed : Bool) (body : List String) :
    List String × Button :=
  let r := applyTopState initialCollapsed (some freshButton) body
  (r.1, r.2.getD freshButton)

/-- `createBottomButton(initialCollapsed)`. -/
def createBottomButton (initialCollapsed : Bool) (body : List String) :
    List String × Button :=
  let r := applyBottomState initialCollapsed (some freshButton) body
  (r.1, r.2.getD freshButton)

/-- `createLeftButton(initialCollapsed)`. -/
def createLeftButton (initialCollapsed : Bool) (body : List String) :
    List String × Button :=
  let r := applyLeftState initialCollapsed (some freshButton) body
  (r.1, r.2.getD freshButton)

/-- `init()` with the three stored flags already read.  The duplicate
guard returns immediately when the top button id is already in the
document.  Otherwise (once the polling loop fires, with or without a
container) the three buttons are created, appended to the body, and each
state is applied once more.  The polling delay only affects timing, not
the resulting state, so it is elided. -/
def init (s : PageState) (topCollapsed bottomCollapsed leftCollapsed : Bool) :
    PageState :=
  if s.topBtn.isSome then s
  else
    let r1 := createTopButton topCollapsed s.body
    let r2 := createBottomButton bottomCollapsed r1.1
    let r3 := createLeftButton leftCollapsed r2.1
    let a1 := applyTopState topCollapsed (some r1.2) r3.1
    let a2 := applyBottomState bottomCollapsed (some r2.2) a1.1
    let a3 := applyLeftState leftCollapsed (some r3.2) a2.1
    { body := a3.1,
      topBtn := a1.2.getD r1.2 |> some,
      bottomBtn := a2.2.getD r2.2 |> some,
      leftBtn := a3.2.getD r3.2 |> some }

/-- The fields of a DOM keyboard event that the keydown handler reads. -/
structure KeyEvent where
  altKey : Bool
  shiftKey : Bool
  key : String

/-- JavaScript `toLowerCase()` on a key string, as a character-wise case
map (the keys compared against are ASCII letters). -/
def toLowerCase (s : String) : String := String.mk (s.data.map Char.toLower)

/-- The document-level keydown handler: on Alt+Shift with H/J/L (matched
case-insensitively via `toLowerCase`) it clicks the corresponding button
if that button exists; any other event does nothing.  Like the click
handlers it returns the new page state and the persisted pair. -/
def keydown (e : KeyEvent) (s : PageState) : PageState × Option (String × Bool) :=
  if e.altKey && e.shiftKey then
    if toLowerCase e.key = "h" then clickTop s
    else if toLowerCase e.key = "j" then clickBottom s
    else if toLowerCase e.key = "l" then clickLeft s
    else (s, none)
  else (s, none)

/-- A JavaScript value as it can come back from `chrome.storage.local`. -/
inductive JSVal where
  | bool (b : Bool)
  | str (s : String)
  | num (n : Int)
  deriving Repr, DecidableEq

/-- How one `chrome.storage.local.get` call can behave: throw
synchronously (no extension context), invoke the callback with
`chrome.runtime.lastError` set, or invoke it with a result object whose
entry for the requested key is `value` (`none` meaning no entry, so that
`result[key]` is `undefined`). -/
inductive ChromeReadOutcome where
  | throws
  | err
  | ok (value : Option JSVal)
  deriving Repr, DecidableEq

/-- `getStoredState(key)` resolved to its boolean result. `localVal` is
what `localStorage.getItem(key)` would return.  On a callback error the
promise resolves `false`; on success it resolves `result[key] === true`
(true only for the exact boolean `true`); on a synchronous throw it falls
back to `localStorage.getItem(key) === 'true'`. -/
def getStoredState (outcome : ChromeReadOutcome) (localVal : Option String) :
    Bool :=
  match outcome with
  | .throws => localVal == some "true"
  | .err => false
  | .ok v =>
    match v with
    | some (JSVal.bool b) => b
    | _ => false

/-- A bounding client rect, reduced to the coordinates the positioning
loop reads.  Coordinates are modelled as integers (the loop's arithmetic
is the exact `+ 4 - 14`, so only the ordered-ring structure matters). -/
structure Rect where
  left : Int
  right : Int
  deriving Repr, DecidableEq

/-- The host-page elements the left-button positioning loop queries, each
possibly absent.  `sidebar` already stands for the
`.p-view_contents--sidebar || .p-ia4_client__sidebar` choice and
`tabRail` for `.p-tab_rail || .p-ia4_tab_rail`. -/
structure LeftPosEnv where
  resizer : Option Rect
  sidebar : Option Rect
  tabRail : Option Rect
  deriving Repr, DecidableEq

/-- The `targetLeft` value one tick of the positioning loop computes: it
starts at 0 and is set from the resizer (when present with a positive
left edge), else the sidebar's right edge, when expanded; from the tab
rail's right edge when collapsed. -/
def leftTickTarget (env : LeftPosEnv) (collapsed : Bool) : Int :=
  if collapsed then
    match env.tabRail with
    | some tabRail => tabRail.right - 14
    | none => 0
  else
    match env.resizer with
    | some resizer =>
      if resizer.left > 0 then resizer.left + 4 - 14
      else
        match env.sidebar with
        | some sidebar => sidebar.right - 14
        | none => 0
    | none =>
      match env.sidebar with
      | some sidebar => sidebar.right - 14
      | none => 0

/-- One tick of the left-button positioning `setInterval` callback.  It
returns the value assigned to the button's `style.left` this tick (`none`
when nothing is assigned) and the new `lastLeftPos`.  An assignment only
happens when a button exists, the computed `targetLeft` is strictly
positive, and the formatted position differs from `lastLeftPos`. -/
def leftTick (btnPresent : Bool) (body : List String) (env : LeftPosEnv)
    (lastLeftPos : String) : Option String × String :=
  if !btnPresent then (none, lastLeftPos)
  else
    let collapsed : Bool := decide (CLASS_LEFT ∈ body)
    let targetLeft := leftTickTarget env collapsed
    if targetLeft > 0 then
      let newPos := toString targetLeft ++ "px"
      if newPos ≠ lastLeftPos then (some newPos, newPos)
      else (none, lastLeftPos)
    else (none, lastLeftPos)

/-- Toggling a class with force flag `force` makes that class's membership
equal to `force`. -/
theorem mem_classListToggle_self (body : List String) (cls : String)
    (force : Bool) : cls ∈ classListToggle body cls force ↔ force = true := by
  cases force with
  | false => simp [classListToggle, List.mem_filter]
  | true =>
    simp only [classListToggle, if_true]
    split <;> simp_all

/-- Toggling a class leaves every other class's membership unchanged. -/
theorem mem_classListToggle_other (body : List String) (cls c : String)
    (force : Bool) (h : c ≠ cls) :
    c ∈ classListToggle body cls force ↔ c ∈ body := by
  cases force with
  | false => simp [classListToggle, List.mem_filter, h]
  | true =>
    simp only [classListToggle, if_true]
    split
    · exact Iff.rfl
    · simp [List.mem_append, h]

/-- Boolean form of `mem_classListToggle_self`. -/
theorem decide_mem_classListToggle_self (body : List String) (cls : String)
    (force : Bool) : decide (cls ∈ classListToggle body cls force) = force := by
  cases force <;> simp [mem_classListToggle_self]

/-- Closed form of `clickTop` when the top button exists. -/
theorem clickTop_some (s : PageState) (b : Button) (h : s.topBtn = some b) :
    clickTop s =
      ({ s with body := classListToggle s.body CLASS_TOP (!decide (CLASS_TOP ∈ s.body)),
                topBtn := some (applyTopStateBtn (!decide (CLASS_TOP ∈ s.body)) b) },
       some (STORAGE_KEY_TOP, !decide (CLASS_TOP ∈ s.body))) := by
  simp [clickTop, h, applyTopState]

/-- Closed form of `clickBottom` when the bottom button exists. -/
theorem clickBottom_some (s : PageState) (b : Button) (h : s.bottomBtn = some b) :
    clickBottom s =
      ({ s with body := classListToggle s.body CLASS_BOTTOM (!decide (CLASS_BOTTOM ∈ s.body)),
                bottomBtn := some (applyBottomStateBtn (!decide (CLASS_BOTTOM ∈ s.body)) b) },
       some (STORAGE_KEY_BOTTOM, !decide (CLASS_BOTTOM ∈ s.body))) := by
  simp [clickBottom, h, applyBottomState]

/-- Closed form of `clickLeft` when the left button exists. -/
theorem clickLeft_some (s : PageState) (b : Button) (h : s.leftBtn = some b) :
    clickLeft s =
      ({ s with body := classListToggle s.body CLASS_LEFT (!decide (CLASS_LEFT ∈ s.body)),
                leftBtn := some (applyLeftStateBtn (!decide (CLASS_LEFT ∈ s.body)) b) },
       some (STORAGE_KEY_LEFT, !decide (CLASS_LEFT ∈ s.body))) := by
  simp [clickLeft, h, applyLeftState]

/-- A concrete page state with all three buttons injected, used to
instantiate theorems with presence hypotheses. -/
def witState : PageState :=
  { body := [], topBtn := some freshButton, bottomBtn := some freshButton,
    leftBtn := some freshButton }

/-- C5: when a control injected by a previous initialization is already
present (the top button id resolves), `init` returns the page state
unchanged: it creates and appends no buttons, so no duplicates arise. -/
theorem claim_double_init_noop (s : PageState) (tc bc lc : Bool)
    (h : s.topBtn.isSome) : init s tc bc lc = s := by
  simp only [init, h, if_true]

/-- Instance of `claim_double_init_noop` at a concrete already-initialized
state. -/
theorem claim_double_init_noop_witness : init witState true false true = witState :=
  claim_double_init_noop witState true false true rfl

/-- C6 counterexample: when the extension storage call throws
synchronously and page-local storage holds the string true, getState
returns `true`, not `false` as the claim states. -/
theorem claim_read_error_counterexample :
    getStoredState ChromeReadOutcome.throws (some "true") = true := rfl

/-- C6 amended: a read whose completion callback reports an error resolves
`false`; a synchronous throw falls back to page-local storage, resolving
`true` exactly when the stored string is "true" (hence `false` when the
fallback holds no entry); every outcome resolves to a boolean, so no
error propagates. -/
theorem claim_read_error_defaults (lv : Option String) :
    getStoredState ChromeReadOutcome.err lv = false ∧
    getStoredState ChromeReadOutcome.throws none = false ∧
    (getStoredState ChromeReadOutcome.throws lv = true ↔ lv = some "true") := by
  refine ⟨rfl, rfl, ?_⟩
  simp [getStoredState]

/-- C10: the extension-store path decodes to `true` exactly on the strict
boolean `true` (the string "true" and the number 1 both read as not
collapsed), while the page-local fallback path decodes to `true` exactly
on the string "true". -/
theorem claim_two_decode_paths (lv : Option String) (v : Option JSVal) :
    (getStoredState (ChromeReadOutcome.ok v) lv = true ↔ v = some (JSVal.bool true)) ∧
    (getStoredState ChromeReadOutcome.throws lv = true ↔ lv = some "true") ∧
    getStoredState (ChromeReadOutcome.ok (some (JSVal.str "true"))) lv = false ∧
    getStoredState (ChromeReadOutcome.ok (some (JSVal.num 1))) lv = false := by
  refine ⟨?_, ?_, rfl, rfl⟩
  · cases v with
    | none => simp [getStoredState]
    | some jv => cases jv <;> simp [getStoredState]
  · simp [getStoredState]

/-- C1: for each of the three flags, one click flips the flag's body
class, and the value the click passes to the persistence write is exactly
the new in-DOM state: the marker class is present after the click iff the
persisted boolean is true. -/
theorem claim_click_persists_new_state (s : PageState) (b : Button) :
    (s.topBtn = some b →
      (clickTop s).2 = some (STORAGE_KEY_TOP, decide (CLASS_TOP ∈ (clickTop s).1.body)) ∧
      (CLASS_TOP ∈ (clickTop s).1.body ↔ CLASS_TOP ∉ s.body)) ∧
    (s.bottomBtn = some b →
      (clickBottom s).2 = some (STORAGE_KEY_BOTTOM, decide (CLASS_BOTTOM ∈ (clickBottom s).1.body)) ∧
      (CLASS_BOTTOM ∈ (clickBottom s).1.body ↔ CLASS_BOTTOM ∉ s.body)) ∧
    (s.leftBtn = some b →
      (clickLeft s).2 = some (STORAGE_KEY_LEFT, decide (CLASS_LEFT ∈ (clickLeft s).1.body)) ∧
      (CLASS_LEFT ∈ (clickLeft s).1.body ↔ CLASS_LEFT ∉ s.body)) := by
  refine ⟨fun h => ?_, fun h => ?_, fun h => ?_⟩
  · rw [clickTop_some s b h]
    constructor
    · simp [decide_mem_classListToggle_self]
    · simp [mem_classListToggle_self]
  · rw [clickBottom_some s b h]
    constructor
    · simp [decide_mem_classListToggle_self]
    · simp [mem_classListToggle_self]
  · rw [clickLeft_some s b h]
    constructor
    · simp [decide_mem_classListToggle_self]
    · simp [mem_classListToggle_self]

/-- Instance of `claim_click_persists_new_state` with all three presence
hypotheses discharged at a concrete state. -/
theorem claim_click_persists_new_state_witness :
    ((clickTop witState).2 = some (STORAGE_KEY_TOP, decide (CLASS_TOP ∈ (clickTop witState).1.body)) ∧
      (CLASS_TOP ∈ (clickTop witState).1.body ↔ CLASS_TOP ∉ witState.body)) ∧
    ((clickBottom witState).2 = some (STORAGE_KEY_BOTTOM, decide (CLASS_BOTTOM ∈ (clickBottom witState).1.body)) ∧
      (CLASS_BOTTOM ∈ (clickBottom witState).1.body ↔ CLASS_BOTTOM ∉ witState.body)) ∧
    ((clickLeft witState).2 = some (STORAGE_KEY_LEFT, decide (CLASS_LEFT ∈ (clickLeft witState).1.body)) ∧
      (CLASS_LEFT ∈ (clickLeft witState).1.body ↔ CLASS_LEFT ∉ witState.body)) :=
  ⟨(claim_click_persists_new_state witState freshButton).1 rfl,
   (claim_click_persists_new_state witState freshButton).2.1 rfl,
   (claim_click_persists_new_state witState freshButton).2.2 rfl⟩

/-- C4: dispatching Alt+Shift with H, J or L (either letter case) yields
exactly the same resulting page state and the same persisted key/value as
clicking the corresponding button once. -/
theorem claim_shortcut_equals_click (s : PageState) :
    (keydown { altKey := true, shiftKey := true, key := "h" } s = clickTop s ∧
     keydown { altKey := true, shiftKey := true, key := "H" } s = clickTop s) ∧
    (keydown { altKey := true, shiftKey := true, key := "j" } s = clickBottom s ∧
     keydown { altKey := true, shiftKey := true, key := "J" } s = clickBottom s) ∧
    (keydown { altKey := true, shiftKey := true, key := "l" } s = clickLeft s ∧
     keydown { altKey := true, shiftKey := true, key := "L" } s = clickLeft s) := by
  refine ⟨⟨by rfl, by rfl⟩, ⟨by rfl, by rfl⟩, ⟨by rfl, by rfl⟩⟩

/-- C8: the three flags are independent.  Each applyState call sets its
own marker class to `collapsed` and leaves the other two marker classes'
membership unchanged, and each click handler leaves the other two
buttons untouched. -/
theorem claim_flags_independent (c : Bool) (btn : Option Button)
    (body : List String) (s : PageState) :
    ((CLASS_BOTTOM ∈ (applyTopState c btn body).1 ↔ CLASS_BOTTOM ∈ body) ∧
     (CLASS_LEFT ∈ (applyTopState c btn body).1 ↔ CLASS_LEFT ∈ body) ∧
     (CLASS_TOP ∈ (applyTopState c btn body).1 ↔ c = true)) ∧
    ((CLASS_TOP ∈ (applyBottomState c btn body).1 ↔ CLASS_TOP ∈ body) ∧
     (CLASS_LEFT ∈ (applyBottomState c btn body).1 ↔ CLASS_LEFT ∈ body) ∧
     (CLASS_BOTTOM ∈ (applyBottomState c btn body).1 ↔ c = true)) ∧
    ((CLASS_TOP ∈ (applyLeftState c btn body).1 ↔ CLASS_TOP ∈ body) ∧
     (CLASS_BOTTOM ∈ (applyLeftState c btn body).1 ↔ CLASS_BOTTOM ∈ body) ∧
     (CLASS_LEFT ∈ (applyLeftState c btn body).1 ↔ c = true)) ∧
    ((clickTop s).1.bottomBtn = s.bottomBtn ∧ (clickTop s).1.leftBtn = s.leftBtn ∧
     (clickBottom s).1.topBtn = s.topBtn ∧ (clickBottom s).1.leftBtn = s.leftBtn ∧
     (clickLeft s).1.topBtn = s.topBtn ∧ (clickLeft s).1.bottomBtn = s.bottomBtn) := by
  refine ⟨⟨?_, ?_, ?_⟩, ⟨?_, ?_, ?_⟩, ⟨?_, ?_, ?_⟩, ?_, ?_, ?_, ?_, ?_, ?_⟩
  · exact mem_classListToggle_other body CLASS_TOP CLASS_BOTTOM c (by decide)
  · exact mem_classListToggle_other body CLASS_TOP CLASS_LEFT c (by decide)
  · exact mem_classListToggle_self body CLASS_TOP c
  · exact mem_classListToggle_other body CLASS_BOTTOM CLASS_TOP c (by decide)
  · exact mem_classListToggle_other body CLASS_BOTTOM CLASS_LEFT c (by decide)
  · exact mem_classListToggle_self body CLASS_BOTTOM c
  · exact mem_classListToggle_other body CLASS_LEFT CLASS_TOP c (by decide)
  · exact mem_classListToggle_other body CLASS_LEFT CLASS_BOTTOM c (by decide)
  · exact mem_classListToggle_self body CLASS_LEFT c
  · cases h : s.topBtn <;> simp [clickTop, h]
  · cases h : s.topBtn <;> simp [clickTop, h]
  · cases h : s.bottomBtn <;> simp [clickBottom, h]
  · cases h : s.bottomBtn <;> simp [clickBottom, h]
  · cases h : s.leftBtn <;> simp [clickLeft, h]
  · cases h : s.leftBtn <;> simp [clickLeft, h]

/-- C9: applyState with a null button still toggles the marker class per
`collapsed` (the class toggle is unconditional and agrees with the one
performed when a button is present), performs no button update, and
returns normally. -/
theorem claim_apply_null_button (c : Bool) (body : List String) :
    ((applyTopState c none body).2 = none ∧
     (CLASS_TOP ∈ (applyTopState c none body).1 ↔ c = true) ∧
     (applyTopState c none body).1 = (applyTopState c (some freshButton) body).1) ∧
    ((applyBottomState c none body).2 = none ∧
     (CLASS_BOTTOM ∈ (applyBottomState c none body).1 ↔ c = true) ∧
     (applyBottomState c none body).1 = (applyBottomState c (some freshButton) body).1) ∧
    ((applyLeftState c none body).2 = none ∧
     (CLASS_LEFT ∈ (applyLeftState c none body).1 ↔ c = true) ∧
     (applyLeftState c none body).1 = (applyLeftState c (some freshButton) body).1) :=
  ⟨⟨rfl, mem_classListToggle_self body CLASS_TOP c, rfl⟩,
   ⟨rfl, mem_classListToggle_self body CLASS_BOTTOM c, rfl⟩,
   ⟨rfl, mem_classListToggle_self body CLASS_LEFT c, rfl⟩⟩

/-- Body class list produced by `init` when the duplicate guard passes:
each flag's class is toggled once during button creation and once more
when the initial states are re-applied. -/
theorem init_body_eq (s : PageState) (h : s.topBtn = none) (tc bc lc : Bool) :
    (init s tc bc lc).body =
      classListToggle (classListToggle (classListToggle (classListToggle (classListToggle
        (classListToggle s.body CLASS_TOP tc) CLASS_BOTTOM bc) CLASS_LEFT lc)
        CLASS_TOP tc) CLASS_BOTTOM bc) CLASS_LEFT lc := by
  simp [init, h, createTopButton, createBottomButton, createLeftButton,
        applyTopState, applyBottomState, applyLeftState]

/-- C3: with no stored entry under a key (and no error) `getStoredState`
resolves false, and initializing with three such reads leaves none of the
collapse marker classes on the body: every region is expanded. -/
theorem claim_fresh_default_expanded (s : PageState) (lt lb ll : Option String)
    (h : s.topBtn = none) :
    getStoredState (ChromeReadOutcome.ok none) lt = false ∧
    (CLASS_TOP ∉ (init s (getStoredState (ChromeReadOutcome.ok none) lt)
        (getStoredState (ChromeReadOutcome.ok none) lb)
        (getStoredState (ChromeReadOutcome.ok none) ll)).body ∧
     CLASS_BOTTOM ∉ (init s (getStoredState (ChromeReadOutcome.ok none) lt)
        (getStoredState (ChromeReadOutcome.ok none) lb)
        (getStoredState (ChromeReadOutcome.ok none) ll)).body ∧
     CLASS_LEFT ∉ (init s (getStoredState (ChromeReadOutcome.ok none) lt)
        (getStoredState (ChromeReadOutcome.ok none) lb)
        (getStoredState (ChromeReadOutcome.ok none) ll)).body) := by
  have hg : ∀ lv : Option String, getStoredState (ChromeReadOutcome.ok none) lv = false :=
    fun _ => rfl
  refine ⟨hg lt, ?_⟩
  rw [hg lt, hg lb, hg ll]
  refine ⟨?_, ?_, ?_⟩ <;>
    rw [init_body_eq s h false false false] <;>
    simp [classListToggle, List.mem_filter]

/-- An uninitialized page whose body still carries stale marker classes,
used to instantiate initialization theorems. -/
def noBtnState : PageState :=
  { body := [CLASS_TOP, CLASS_LEFT], topBtn := none, bottomBtn := none,
    leftBtn := none }

/-- Instance of `claim_fresh_default_expanded` at a concrete state. -/
theorem claim_fresh_default_expanded_witness :
    getStoredState (ChromeReadOutcome.ok none) none = false ∧
    (CLASS_TOP ∉ (init noBtnState (getStoredState (ChromeReadOutcome.ok none) none)
        (getStoredState (ChromeReadOutcome.ok none) none)
        (getStoredState (ChromeReadOutcome.ok none) none)).body ∧
     CLASS_BOTTOM ∉ (init noBtnState (getStoredState (ChromeReadOutcome.ok none) none)
        (getStoredState (ChromeReadOutcome.ok none) none)
        (getStoredState (ChromeReadOutcome.ok none) none)).body ∧
     CLASS_LEFT ∉ (init noBtnState (getStoredState (ChromeReadOutcome.ok none) none)
        (getStoredState (ChromeReadOutcome.ok none) none)
        (getStoredState (ChromeReadOutcome.ok none) none)).body) :=
  claim_fresh_default_expanded noBtnState none none none rfl

/-- A top button whose icon does not reflect the body-class state: the
body lacks `CLASS_TOP` yet the icon is a junk string. -/
def mismatchedButton : Button := { freshButton with innerHTML := "x" }

/-- Page state exhibiting the mismatch for the double-toggle claim. -/
def mismatchedState : PageState :=
  { body := [], topBtn := some mismatchedButton, bottomBtn := none,
    leftBtn := none }

/-- C2 counterexample: starting from an (arbitrary, as the claim allows)
button icon "x" with the body class absent, two clicks leave the icon at
`ICON_UP`, not at its original value "x", so double-toggle does not
restore an arbitrary starting icon. -/
theorem claim_double_toggle_counterexample :
    mismatchedState.topBtn.map Button.innerHTML = some "x" ∧
    (clickTop (clickTop mismatchedState).1).1.topBtn.map Button.innerHTML = some ICON_UP ∧
    ICON_UP ≠ "x" :=
  ⟨rfl, by rfl, by decide⟩

/-- C2 amended: for every starting state in which the control exists,
toggling twice restores the flag's body class — mismatched icons and
labels included.  After the double toggle the control's icon, tooltip and
aria-label are exactly the values the (restored) body class determines,
so each of them is restored whenever it initially agrees with the
body-class state, which `applyState` establishes for every control the
script creates; a mismatched field is instead normalized to the
class-determined value. -/
theorem claim_double_toggle_identity (s : PageState) (b : Button) :
    (s.topBtn = some b →
      (CLASS_TOP ∈ (clickTop (clickTop s).1).1.body ↔ CLASS_TOP ∈ s.body) ∧
      (clickTop (clickTop s).1).1.topBtn.map Button.innerHTML =
        some (if decide (CLASS_TOP ∈ s.body) then ICON_DOWN else ICON_UP) ∧
      (clickTop (clickTop s).1).1.topBtn.map Button.dataTooltip =
        some (if decide (CLASS_TOP ∈ s.body) then "ヘッダーを表示" else "ヘッダーを非表示") ∧
      (clickTop (clickTop s).1).1.topBtn.map Button.ariaLabel =
        some (if decide (CLASS_TOP ∈ s.body) then "ヘッダーを表示" else "ヘッダーを非表示") ∧
      (b.innerHTML = (if decide (CLASS_TOP ∈ s.body) then ICON_DOWN else ICON_UP) →
        (clickTop (clickTop s).1).1.topBtn.map Button.innerHTML = some b.innerHTML) ∧
      (b.dataTooltip = (if decide (CLASS_TOP ∈ s.body) then "ヘッダーを表示" else "ヘッダーを非表示") →
        (clickTop (clickTop s).1).1.topBtn.map Button.dataTooltip = some b.dataTooltip) ∧
      (b.ariaLabel = (if decide (CLASS_TOP ∈ s.body) then "ヘッダーを表示" else "ヘッダーを非表示") →
        (clickTop (clickTop s).1).1.topBtn.map Button.ariaLabel = some b.ariaLabel)) ∧
    (s.bottomBtn = some b →
      (CLASS_BOTTOM ∈ (clickBottom (clickBottom s).1).1.body ↔ CLASS_BOTTOM ∈ s.body) ∧
      (clickBottom (clickBottom s).1).1.bottomBtn.map Button.innerHTML =
        some (if decide (CLASS_BOTTOM ∈ s.body) then ICON_UP else ICON_DOWN) ∧
      (clickBottom (clickBottom s).1).1.bottomBtn.map Button.dataTooltip =
        some (if decide (CLASS_BOTTOM ∈ s.body) then "入力エリアを表示" else "入力エリアを非表示") ∧
      (clickBottom (clickBottom s).1).1.bottomBtn.map Button.ariaLabel =
        some (if decide (CLASS_BOTTOM ∈ s.body) then "入力エリアを表示" else "入力エリアを非表示") ∧
      (b.innerHTML = (if decide (CLASS_BOTTOM ∈ s.body) then ICON_UP else ICON_DOWN) →
        (clickBottom (clickBottom s).1).1.bottomBtn.map Button.innerHTML = some b.innerHTML) ∧
      (b.dataTooltip = (if decide (CLASS_BOTTOM ∈ s.body) then "入力エリアを表示" else "入力エリアを非表示") →
        (clickBottom (clickBottom s).1).1.bottomBtn.map Button.dataTooltip = some b.dataTooltip) ∧
      (b.ariaLabel = (if decide (CLASS_BOTTOM ∈ s.body) then "入力エリアを表示" else "入力エリアを非表示") →
        (clickBottom (clickBottom s).1).1.bottomBtn.map Button.ariaLabel = some b.ariaLabel)) ∧
    (s.leftBtn = some b →
      (CLASS_LEFT ∈ (clickLeft (clickLeft s).1).1.body ↔ CLASS_LEFT ∈ s.body) ∧
      (clickLeft (clickLeft s).1).1.leftBtn.map Button.innerHTML =
        some (if decide (CLASS_LEFT ∈ s.body) then ICON_RIGHT else ICON_LEFT) ∧
      (clickLeft (clickLeft s).1).1.leftBtn.map Button.dataTooltip =
        some (if decide (CLASS_LEFT ∈ s.body) then "サイドバーを表示" else "サイドバーを非表示") ∧
      (clickLeft (clickLeft s).1).1.leftBtn.map Button.ariaLabel =
        some (if decide (CLASS_LEFT ∈ s.body) then "サイドバーを表示" else "サイドバーを非表示") ∧
      (b.innerHTML = (if decide (CLASS_LEFT ∈ s.body) then ICON_RIGHT else ICON_LEFT) →
        (clickLeft (clickLeft s).1).1.leftBtn.map Button.innerHTML = some b.innerHTML) ∧
      (b.dataTooltip = (if decide (CLASS_LEFT ∈ s.body) then "サイドバーを表示" else "サイドバーを非表示") →
        (clickLeft (clickLeft s).1).1.leftBtn.map Button.dataTooltip = some b.dataTooltip) ∧
      (b.ariaLabel = (if decide (CLASS_LEFT ∈ s.body) then "サイドバーを表示" else "サイドバーを非表示") →
        (clickLeft (clickLeft s).1).1.leftBtn.map Button.ariaLabel = some b.ariaLabel)) := by
  refine ⟨fun h => ?_, fun h => ?_, fun h => ?_⟩
  · have hicon : (clickTop (clickTop s).1).1.topBtn.map Button.innerHTML =
        some (if decide (CLASS_TOP ∈ s.body) then ICON_DOWN else ICON_UP) := by
      simp [clickTop, h, applyTopState, applyTopStateBtn, decide_mem_classListToggle_self]
    have htip : (clickTop (clickTop s).1).1.topBtn.map Button.dataTooltip =
        some (if decide (CLASS_TOP ∈ s.body) then "ヘッダーを表示" else "ヘッダーを非表示") := by
      simp [clickTop, h, applyTopState, applyTopStateBtn, decide_mem_classListToggle_self]
    have haria : (clickTop (clickTop s).1).1.topBtn.map Button.ariaLabel =
        some (if decide (CLASS_TOP ∈ s.body) then "ヘッダーを表示" else "ヘッダーを非表示") := by
      simp [clickTop, h, applyTopState, applyTopStateBtn, decide_mem_classListToggle_self]
    refine ⟨?_, hicon, htip, haria,
            fun h1 => by rw [hicon, h1], fun h2 => by rw [htip, h2],
            fun h3 => by rw [haria, h3]⟩
    simp [clickTop, h, applyTopState, applyTopStateBtn, decide_mem_classListToggle_self,
          mem_classListToggle_self]
  · have hicon : (clickBottom (clickBottom s).1).1.bottomBtn.map Button.innerHTML =
        some (if decide (CLASS_BOTTOM ∈ s.body) then ICON_UP else ICON_DOWN) := by
      simp [clickBottom, h, applyBottomState, applyBottomStateBtn, decide_mem_classListToggle_self]
    have htip : (clickBottom (clickBottom s).1).1.bottomBtn.map Button.dataTooltip =
        some (if decide (CLASS_BOTTOM ∈ s.body) then "入力エリアを表示" else "入力エリアを非表示") := by
      simp [clickBottom, h, applyBottomState, applyBottomStateBtn, decide_mem_classListToggle_self]
    have haria : (clickBottom (clickBottom s).1).1.bottomBtn.map Button.ariaLabel =
        some (if decide (CLASS_BOTTOM ∈ s.body) then "入力エリアを表示" else "入力エリアを非表示") := by
      simp [clickBottom, h, applyBottomState, applyBottomStateBtn, decide_mem_classListToggle_self]
    refine ⟨?_, hicon, htip, haria,
            fun h1 => by rw [hicon, h1], fun h2 => by rw [htip, h2],
            fun h3 => by rw [haria, h3]⟩
    simp [clickBottom, h, applyBottomState, applyBottomStateBtn, decide_mem_classListToggle_self,
          mem_classListToggle_self]
  · have hicon : (clickLeft (clickLeft s).1).1.leftBtn.map Button.innerHTML =
        some (if decide (CLASS_LEFT ∈ s.body) then ICON_RIGHT else ICON_LEFT) := by
      simp [clickLeft, h, applyLeftState, applyLeftStateBtn, decide_mem_classListToggle_self]
    have htip : (clickLeft (clickLeft s).1).1.leftBtn.map Button.dataTooltip =
        some (if decide (CLASS_LEFT ∈ s.body) then "サイドバーを表示" else "サイドバーを非表示") := by
      simp [clickLeft, h, applyLeftState, applyLeftStateBtn, decide_mem_classListToggle_self]
    have haria : (clickLeft (clickLeft s).1).1.leftBtn.map Button.ariaLabel =
        some (if decide (CLASS_LEFT ∈ s.body) then "サイドバーを表示" else "サイドバーを非表示") := by
      simp [clickLeft, h, applyLeftState, applyLeftStateBtn, decide_mem_classListToggle_self]
    refine ⟨?_, hicon, htip, haria,
            fun h1 => by rw [hicon, h1], fun h2 => by rw [htip, h2],
            fun h3 => by rw [haria, h3]⟩
    simp [clickLeft, h, applyLeftState, applyLeftStateBtn, decide_mem_classListToggle_self,
          mem_classListToggle_self]

/-- A page state whose three buttons carry exactly the icon and labels
`applyState` assigns for the expanded state, as after initialization. -/
def consistentState : PageState :=
  { body := [],
    topBtn := some (applyTopStateBtn false freshButton),
    bottomBtn := some (applyBottomStateBtn false freshButton),
    leftBtn := some (applyLeftStateBtn false freshButton) }

/-- Instance of `claim_double_toggle_identity` with every hypothesis
discharged at a concrete consistent state. -/
theorem claim_double_toggle_identity_witness :
    ((CLASS_TOP ∈ (clickTop (clickTop consistentState).1).1.body ↔ CLASS_TOP ∈ consistentState.body) ∧
     (clickTop (clickTop consistentState).1).1.topBtn.map Button.innerHTML =
       some (applyTopStateBtn false freshButton).innerHTML ∧
     (clickTop (clickTop consistentState).1).1.topBtn.map Button.dataTooltip =
       some (applyTopStateBtn false freshButton).dataTooltip ∧
     (clickTop (clickTop consistentState).1).1.topBtn.map Button.ariaLabel =
       some (applyTopStateBtn false freshButton).ariaLabel) ∧
    ((CLASS_BOTTOM ∈ (clickBottom (clickBottom consistentState).1).1.body ↔ CLASS_BOTTOM ∈ consistentState.body) ∧
     (clickBottom (clickBottom consistentState).1).1.bottomBtn.map Button.innerHTML =
       some (applyBottomStateBtn false freshButton).innerHTML ∧
     (clickBottom (clickBottom consistentState).1).1.bottomBtn.map Button.dataTooltip =
       some (applyBottomStateBtn false freshButton).dataTooltip ∧
     (clickBottom (clickBottom consistentState).1).1.bottomBtn.map Button.ariaLabel =
       some (applyBottomStateBtn false freshButton).ariaLabel) ∧
    ((CLASS_LEFT ∈ (clickLeft (clickLeft consistentState).1).1.body ↔ CLASS_LEFT ∈ consistentState.body) ∧
     (clickLeft (clickLeft consistentState).1).1.leftBtn.map Button.innerHTML =
       some (applyLeftStateBtn false freshButton).innerHTML ∧
     (clickLeft (clickLeft consistentState).1).1.leftBtn.map Button.dataTooltip =
       some (applyLeftStateBtn false freshButton).dataTooltip ∧
     (clickLeft (clickLeft consistentState).1).1.leftBtn.map Button.ariaLabel =
       some (applyLeftStateBtn false freshButton).ariaLabel) :=
  ⟨⟨((claim_double_toggle_identity consistentState (applyTopStateBtn false freshButton)).1 rfl).1,
    ((claim_double_toggle_identity consistentState (applyTopStateBtn false freshButton)).1 rfl).2.2.2.2.1 rfl,
    ((claim_double_toggle_identity consistentState (applyTopStateBtn false freshButton)).1 rfl).2.2.2.2.2.1 rfl,
    ((claim_double_toggle_identity consistentState (applyTopStateBtn false freshButton)).1 rfl).2.2.2.2.2.2 rfl⟩,
   ⟨((claim_double_toggle_identity consistentState (applyBottomStateBtn false freshButton)).2.1 rfl).1,
    ((claim_double_toggle_identity consistentState (applyBottomStateBtn false freshButton)).2.1 rfl).2.2.2.2.1 rfl,
    ((claim_double_toggle_identity consistentState (applyBottomStateBtn false freshButton)).2.1 rfl).2.2.2.2.2.1 rfl,
    ((claim_double_toggle_identity consistentState (applyBottomStateBtn false freshButton)).2.1 rfl).2.2.2.2.2.2 rfl⟩,
   ⟨((claim_double_toggle_identity consistentState (applyLeftStateBtn false freshButton)).2.2 rfl).1,
    ((claim_double_toggle_identity consistentState (applyLeftStateBtn false freshButton)).2.2 rfl).2.2.2.2.1 rfl,
    ((claim_double_toggle_identity consistentState (applyLeftStateBtn false freshButton)).2.2 rfl).2.2.2.2.2.1 rfl,
    ((claim_double_toggle_identity consistentState (applyLeftStateBtn false freshButton)).2.2 rfl).2.2.2.2.2.2 rfl⟩⟩

/-- C7: whenever a tick of the left-button positioning loop performs an
assignment to the button's `style.left`, the computed target offset is
strictly positive and the assigned value is that positive offset. -/
theorem claim_positioning_positive (btnPresent : Bool) (body : List String)
    (env : LeftPosEnv) (lastLeftPos pos : String)
    (h : (leftTick btnPresent body env lastLeftPos).1 = some pos) :
    0 < leftTickTarget env (decide (CLASS_LEFT ∈ body)) ∧
    pos = toString (leftTickTarget env (decide (CLASS_LEFT ∈ body))) ++ "px" := by
  simp only [leftTick] at h
  split at h
  · simp at h
  · split at h
    · split at h
      · simp only [Prod.fst] at h
        rename_i hpos _
        refine ⟨hpos, ?_⟩
        exact (Option.some_inj.mp h).symm
      · simp at h
    · simp at h

/-- Host-page geometry with a sidebar resizer at a positive offset, used
to instantiate the positioning theorem. -/
def posEnvWit : LeftPosEnv :=
  { resizer := some { left := 20, right := 30 }, sidebar := none,
    tabRail := none }

/-- Instance of `claim_positioning_positive` at a concrete tick that does
assign a position. -/
theorem claim_positioning_positive_witness :
    0 < leftTickTarget posEnvWit (decide (CLASS_LEFT ∈ ([] : List String))) ∧
    "10px" = toString (leftTickTarget posEnvWit (decide (CLASS_LEFT ∈ ([] : List String)))) ++ "px" :=
  claim_positioning_positive true [] posEnvWit "" "10px" (by rfl)

end SlackVC
